import Mathlib

/-!
Shallow embedding of the packet-groper network scanner (`scanner.py`, `cli.py`).

IPv4 addresses are modelled as natural numbers (the numeric value of the
32-bit address).  Effectful collaborators (sockets, the `ifconfig` and `ping`
subprocesses, the thread pool) are modelled by passing their observable
outcomes in explicitly: an `Env` record for discovery, a per-host probe
outcome function and a completion order for scanning.
-/

namespace PacketGroper

/-- Exception for network-related errors: a stable string code plus a human
message (`NetworkError` in `scanner.py`). -/
structure NetworkError where
  code : String
  message : String
deriving DecidableEq, Repr

/-- An IPv4 network as produced by Python `ipaddress.IPv4Network`: the numeric
network address and the prefix length.  (`IPv4Network` clears host bits on
construction with `strict=False`; validity is hypothesised where needed.) -/
structure IPv4Net where
  network : Nat
  prefixlen : Nat
deriving DecidableEq, Repr

/-- Number of addresses of the subnet, `IPv4Network.num_addresses`. -/
def numAddresses (n : IPv4Net) : Nat :=
  2 ^ (32 - n.prefixlen)

/-- The broadcast address: last address of the subnet. -/
def broadcastAddr (n : IPv4Net) : Nat :=
  n.network + numAddresses n - 1

/-- Python `IPv4Network.hosts()` (materialised by `list(subnet.hosts())` in
`scan_network`): for a /31 both addresses, for a /32 the single address,
otherwise `range(network + 1, broadcast)`, excluding network and broadcast. -/
def hosts (n : IPv4Net) : List Nat :=
  if n.prefixlen = 31 then [n.network, n.network + 1]
  else if n.prefixlen = 32 then [n.network]
  else List.range' (n.network + 1) (numAddresses n - 2)

/-- Results from a network scan (`ScanResult` dataclass). -/
structure ScanResult where
  subnet : IPv4Net
  hosts_scanned : List Nat
  alive : List Nat
  dead : List Nat
deriving DecidableEq, Repr

/-- Outcome of one `subprocess.run` call made by `_ping_host`: the process
completed with a return code, the hard deadline fired
(`subprocess.TimeoutExpired`), or some other exception was raised anywhere in
the `try` block (platform lookup, argument formatting, process launch). -/
inductive SubprocessOutcome where
  | completed (returncode : Int)
  | timeoutExpired
  | raised
deriving DecidableEq, Repr

/-- Ping a single host (`_ping_host`): alive exactly when the external check
completed with return code 0; `TimeoutExpired` and every other exception are
caught and normalised to `false`. -/
def ping_host (run : SubprocessOutcome) : Bool :=
  match run with
  | .completed rc => rc == 0
  | .timeoutExpired => false
  | .raised => false

/-- Outcome of `future.result()` for one host in the aggregation loop of
`scan_network`: the probe's boolean, or an exception. -/
inductive FutureOutcome where
  | result (b : Bool)
  | raised
deriving DecidableEq, Repr

/-- Classification performed by the aggregation loop: alive when the probe
returned `True`; a `False` result or an exception classifies the host dead. -/
def isAlive (o : FutureOutcome) : Bool :=
  match o with
  | .result b => b
  | .raised => false

/-- Scan all hosts in a subnet (`scan_network`).  `outcome` gives each host's
probe result and `completionOrder` is the order in which `as_completed`
delivers the futures (in reality a permutation of the submitted hosts). -/
def scan_network (subnet : IPv4Net) (outcome : Nat → FutureOutcome)
    (completionOrder : List Nat) : Except NetworkError ScanResult :=
  if subnet.prefixlen < 22 then
    .error ⟨"unsupported-subnet",
      "Only /22 or smaller subnets are supported, got /" ++ toString subnet.prefixlen⟩
  else
    .ok { subnet := subnet
          hosts_scanned := hosts subnet
          alive := completionOrder.filter (fun ip => isAlive (outcome ip))
          dead := completionOrder.filter (fun ip => !isAlive (outcome ip)) }

/-- Dotted-decimal rendering of an address, as `str(IPv4Address(n))`. -/
def ipToString (ip : Nat) : String :=
  toString (ip / 16777216 % 256) ++ "." ++ toString (ip / 65536 % 256) ++ "."
    ++ toString (ip / 256 % 256) ++ "." ++ toString (ip % 256)

/-- Rendering of a subnet, as `str(IPv4Network)`: address slash length. -/
def netToString (n : IPv4Net) : String :=
  ipToString n.network ++ "/" ++ toString n.prefixlen

/-- The alive list as `sorted(self.alive)` orders it (ascending numeric). -/
def sortedAlive (r : ScanResult) : List Nat :=
  List.insertionSort (fun a b => a ≤ b) r.alive

/-- The lines assembled by `ScanResult.report`. -/
def reportLines (r : ScanResult) : List String :=
  ["Scan Results for " ++ netToString r.subnet,
   String.mk (List.replicate 40 '='),
   "Hosts scanned: " ++ toString r.hosts_scanned.length,
   "Alive: " ++ toString r.alive.length,
   "Dead: " ++ toString r.dead.length,
   "",
   "Alive hosts:"]
  ++ (sortedAlive r).map (fun h => "  " ++ ipToString h)

/-- Generate a human-readable report of scan results (`ScanResult.report`). -/
def report (r : ScanResult) : String :=
  String.intercalate ("\n") (reportLines r)

/-- Modelled from the spec: every address of the subnet, first to last. -/
def allAddresses (n : IPv4Net) : List Nat :=
  List.range' n.network (numAddresses n)

/-- Modelled from the spec: the usable host addresses, namely every address of
the subnet excluding the network and broadcast addresses (spec glossary). -/
def usableHosts (n : IPv4Net) : List Nat :=
  (allAddresses n).filter (fun a => a != n.network && a != broadcastAddr n)

/-- A probe outcome under which every host is dead. -/
def probeNone : Nat → FutureOutcome :=
  fun _ => .result false

/-- Observable outcomes of the effectful collaborators used by discovery:
the value of `get_interfaces()`, the value of `_get_local_ip()`, and the
stdout of the `ifconfig` subprocess (`none` models the call raising). -/
structure Env where
  interfaces : List String
  localIP : Option String
  ifconfigOut : Option String

/-- Substring containment, Python `sub in s`. -/
def strContains (s sub : String) : Bool :=
  (List.range (s.toList.length + 1)).any (fun i => sub.toList.isPrefixOf (s.toList.drop i))

/-- Split a character list at every separator character, keeping empty
pieces, as Python `str.split(sep)` does. -/
def splitOnChar (sep : Char) : List Char → List (List Char)
  | [] => [[]]
  | c :: rest =>
    if c = sep then [] :: splitOnChar sep rest
    else match splitOnChar sep rest with
      | [] => [[c]]
      | g :: gs => (c :: g) :: gs

/-- Split a character list at every whitespace character. -/
def splitAtWs : List Char → List (List Char)
  | [] => [[]]
  | c :: rest =>
    if c.isWhitespace then [] :: splitAtWs rest
    else match splitAtWs rest with
      | [] => [[c]]
      | g :: gs => (c :: g) :: gs

/-- Python `str.split()` with no arguments: whitespace-separated tokens,
empties discarded. -/
def splitWs (s : String) : List String :=
  ((splitAtWs s.toList).filter (fun t => t ≠ [])).map String.mk

/-- Python `result.stdout.split("\n")`. -/
def linesOf (out : String) : List String :=
  (splitOnChar '\n' out.toList).map String.mk

/-- The innermost loop of `_get_netmask`: the token right after the first
token equal to `netmask`, when that token has a successor. -/
def tokenAfterNetmask : List String → Option String
  | [] => none
  | [_] => none
  | a :: b :: rest => if a = "netmask" then some b else tokenAfterNetmask (b :: rest)

/-- The window `lines[max(0, i - 2) : min(len(lines), i + 3)]` inspected
around a line mentioning the local IP. -/
def windowLines (lines : List String) (i : Nat) : List String :=
  (lines.drop (i - 2)).take (min lines.length (i + 3) - (i - 2))

/-- The middle loop of `_get_netmask`: over the window's lines, the first
netmask token found on a line containing the word `netmask`. -/
def maskNearLine (ws : List String) : Option String :=
  ws.findSome? (fun l => if strContains l ("netmask") then tokenAfterNetmask (splitWs l) else none)

/-- The outer loop of `_get_netmask`: for each line containing the local IP,
search its window; the first hit is returned. -/
def findRawMask (lines : List String) (ip : String) : Option String :=
  (List.range lines.length).findSome? (fun i =>
    if strContains (lines.getD i ("")) ip then maskNearLine (windowLines lines i) else none)

/-- Value of one hexadecimal digit. -/
def hexDigit (c : Char) : Option Nat :=
  if '0' ≤ c ∧ c ≤ '9' then some (c.toNat - 48)
  else if 'a' ≤ c ∧ c ≤ 'f' then some (c.toNat - 87)
  else if 'A' ≤ c ∧ c ≤ 'F' then some (c.toNat - 55)
  else none

/-- Python `int(s, 16)` on the digits after the `0x` marker; `none` models the
`ValueError` raised on an empty or non-hexadecimal digit string. -/
def hexToNat (cs : List Char) : Option Nat :=
  if cs = [] then none
  else cs.foldl (fun acc c =>
    match acc, hexDigit c with
    | some a, some d => some (16 * a + d)
    | _, _ => none) (some 0)

/-- Lines 104-109 of `scanner.py`: a mask token starting with `0x` is parsed
as hexadecimal and re-rendered dotted-decimal via
`socket.inet_ntoa(struct.pack(">I", mask_int))`; `none` models the exceptions
those calls raise (invalid hex, value not below 2^32). -/
def convertMask (mask : String) : Option String :=
  match mask.toList with
  | '0' :: 'x' :: rest =>
    (match hexToNat rest with
     | none => none
     | some v => if v < 4294967296 then some (ipToString v) else none)
  | _ => some mask

/-- Get the netmask for the default interface (`_get_netmask`): parse the
`ifconfig` output near the local IP; every failure except a missing local IP
falls back to the /24 mask. -/
def get_netmask (env : Env) : Option String :=
  match env.ifconfigOut with
  | none => some ("255.255.255.0")
  | some out =>
    match env.localIP with
    | none => none
    | some ip =>
      let lines := linesOf out
      match findRawMask lines ip with
      | none => some ("255.255.255.0")
      | some mask =>
        match convertMask mask with
        | none => some ("255.255.255.0")
        | some m => some m

/-- The numeric value of a string of decimal digits. -/
def charsToNat (cs : List Char) : Nat :=
  cs.foldl (fun a c => 10 * a + (c.toNat - 48)) 0

/-- One dotted-decimal octet as `ipaddress` parses it: decimal digits only,
at most three of them, no leading zero, value at most 255. -/
def parseOctet (cs : List Char) : Option Nat :=
  match cs with
  | [] => none
  | c :: rest =>
    if ¬ (c :: rest).all (fun x => x.isDigit) then none
    else if rest ≠ [] ∧ c = '0' then none
    else if 3 < (c :: rest).length then none
    else
      let v := charsToNat (c :: rest)
      if v ≤ 255 then some v else none

/-- A dotted-quad IPv4 address string as the numeric address
(`ipaddress._ip_int_from_string`); `none` models `AddressValueError`. -/
def parseIPv4 (s : String) : Option Nat :=
  match (splitOnChar '.' s.toList).mapM parseOctet with
  | some [a, b, c, d] => some (a * 16777216 + b * 65536 + c * 256 + d)
  | _ => none

/-- The numeric value of the contiguous netmask of a given length. -/
def netmaskInt (p : Nat) : Nat :=
  4294967296 - 2 ^ (32 - p)

/-- Recognise a contiguous netmask value
(`ipaddress._prefix_from_ip_int`). -/
def contiguousMaskLen (m : Nat) : Option Nat :=
  (List.range 33).find? (fun p => m == netmaskInt p)

/-- Mask part of `IPv4Network(f"{ip}/{mask}")` (`_make_netmask`): a bare
decimal string is a prefix length at most 32; otherwise a dotted quad that is
a contiguous netmask, or a hostmask whose complement is one; everything else
models `NetmaskValueError`. -/
def maskPrefixLen (mask : String) : Option Nat :=
  if mask.toList ≠ [] ∧ mask.toList.all (fun c => c.isDigit) then
    (if charsToNat mask.toList ≤ 32 then some (charsToNat mask.toList) else none)
  else match parseIPv4 mask with
    | none => none
    | some m =>
      match contiguousMaskLen m with
      | some p => some p
      | none => contiguousMaskLen (4294967295 - m)

/-- The `IPv4Network(addr, strict=False)` normalisation: clear the host bits,
keeping the prefix length. -/
def ipv4NetworkNonstrict (ip : Nat) (p : Nat) : IPv4Net :=
  ⟨ip - ip % 2 ^ (32 - p), p⟩

/-- Failures escaping `discover_subnet`: the tagged `NetworkError`s it raises
itself, or the `ValueError` that `IPv4Network` raises on an unparsable
address/mask combination (not caught in `scanner.py`). -/
inductive DiscoverError where
  | netErr (e : NetworkError)
  | valueError (msg : String)
deriving DecidableEq

instance {ε α : Type} [DecidableEq ε] [DecidableEq α] : DecidableEq (Except ε α) := fun a b =>
  match a, b with
  | .ok x, .ok y =>
    if h : x = y then isTrue (by rw [h]) else isFalse (fun hc => h (by cases hc; rfl))
  | .error x, .error y =>
    if h : x = y then isTrue (by rw [h]) else isFalse (fun hc => h (by cases hc; rfl))
  | .ok _, .error _ => isFalse (fun hc => Except.noConfusion hc)
  | .error _, .ok _ => isFalse (fun hc => Except.noConfusion hc)

/-- Discover the local network subnet (`discover_subnet`). -/
def discover_subnet (env : Env) (interface : Option String) : Except DiscoverError IPv4Net :=
  match interface with
  | none => .error (.netErr ⟨"no-interface", "No active network interface found"⟩)
  | some _ =>
    if env.interfaces.isEmpty then
      .error (.netErr ⟨"no-interface", "No active network interface found"⟩)
    else match env.localIP with
      | none => .error (.netErr ⟨"no-interface", "Could not determine local IP address"⟩)
      | some ip =>
        match get_netmask env with
        | none => .error (.netErr ⟨"no-interface", "Could not determine network mask"⟩)
        | some mask =>
          match parseIPv4 ip, maskPrefixLen mask with
          | some a, some p => .ok (ipv4NetworkNonstrict a p)
          | _, _ => .error (.valueError ("does not appear to be an IPv4 network"))

/-- The parsed arguments of the `scan` subcommand: its one declared option. -/
structure Args where
  subnet : Option String
deriving DecidableEq

/-- What `cmd_scan` does: return an exit code (having scanned at most one
subnet), or let an uncaught exception escape. -/
inductive CmdOutcome where
  | exit (code : Int) (scanned : Option ScanResult)
  | uncaught (msg : String)
deriving DecidableEq

/-- The `scan` subcommand (`cmd_scan` in `cli.py`): discover, check the size
policy, scan, report.  `NetworkError` maps to exit code 1; a `ValueError`
from discovery is not caught. -/
def cmd_scan (env : Env) (outcome : Nat → FutureOutcome)
    (completionOrder : IPv4Net → List Nat) (args : Args) : CmdOutcome :=
  match discover_subnet env (some ("auto")) with
  | .error (.netErr _) => .exit 1 none
  | .error (.valueError m) => .uncaught m
  | .ok subnet =>
    if subnet.prefixlen < 22 then .exit 1 none
    else
      match scan_network subnet outcome (completionOrder subnet) with
      | .ok r => .exit 0 (some r)
      | .error _ => .exit 1 none

example : parseIPv4 ("192.168.1.57") = some 3232235833 := by decide
example : parseIPv4 ("255.255.255.0") = some 4294967040 := by decide
example : maskPrefixLen ("255.255.255.0") = some 24 := by decide
example : maskPrefixLen ("0.0.0.255") = some 24 := by decide
example : convertMask ("0xffffff00") = some ("255.255.255.0") := by decide
example : get_netmask ⟨["eth0"], some ("192.168.1.57"), none⟩ = some ("255.255.255.0") := by decide
example :
    discover_subnet ⟨["eth0"], some ("192.168.1.57"), none⟩ (some ("auto"))
      = .ok ⟨3232235776, 24⟩ := by decide
example :
    get_netmask ⟨["eth0"], some ("10.0.0.7"),
        some ("inet 10.0.0.7 netmask 0xffffff00 broadcast 10.0.0.255")⟩
      = some ("255.255.255.0") := by decide

/-- C2: for every subnet with prefix length below 22, `scan_network` fails
with a `NetworkError` of code `unsupported-subnet` whose message carries the
input subnet's actual prefix length; for prefix length at least 22 it never
fails with any error. -/
theorem scan_network_size_policy (n : IPv4Net) (outcome : Nat → FutureOutcome)
    (order : List Nat) :
    (n.prefixlen < 22 →
      scan_network n outcome order
        = .error ⟨"unsupported-subnet",
            "Only /22 or smaller subnets are supported, got /" ++ toString n.prefixlen⟩)
    ∧ (22 ≤ n.prefixlen →
        ∀ e, scan_network n outcome order ≠ .error e) := by
  constructor
  · intro h
    simp [scan_network, h]
  · intro h e
    simp [scan_network, Nat.not_lt.mpr h]

/-- Witness for C2 at a /21 input (rejected, message carries 21) and a /24
input (accepted). -/
theorem scan_network_size_policy_witness :
    scan_network ⟨3232235520, 21⟩ probeNone []
      = .error ⟨"unsupported-subnet", "Only /22 or smaller subnets are supported, got /21"⟩
    ∧ ∀ e, scan_network ⟨3232235776, 24⟩ probeNone [] ≠ .error e := by
  constructor
  · have h := (scan_network_size_policy ⟨3232235520, 21⟩ probeNone []).1 (by decide)
    rw [h]
    decide
  · exact (scan_network_size_policy ⟨3232235776, 24⟩ probeNone []).2 (by decide)

/-- C3: the probe always returns a boolean and never lets an error escape:
a subprocess timeout or any other exception yields `false`; the probe is
`true` exactly when the external check completed with return code 0. -/
theorem ping_host_never_fails_outward (run : SubprocessOutcome) :
    (ping_host run = true ∨ ping_host run = false)
    ∧ (run = .timeoutExpired → ping_host run = false)
    ∧ (run = .raised → ping_host run = false)
    ∧ (∀ rc, run = .completed rc → (ping_host run = true ↔ rc = 0)) := by
  refine ⟨?_, ?_, ?_, ?_⟩
  · exact Bool.eq_false_or_eq_true (ping_host run)
  · intro h; cases h; rfl
  · intro h; cases h; rfl
  · intro rc h; cases h; simp [ping_host]

/-- Witness for C3 at the three concrete probe outcomes. -/
theorem ping_host_never_fails_outward_witness :
    ping_host SubprocessOutcome.timeoutExpired = false
    ∧ ping_host SubprocessOutcome.raised = false
    ∧ (ping_host (SubprocessOutcome.completed 0) = true ↔ (0 : Int) = 0) :=
  ⟨(ping_host_never_fails_outward _).2.1 rfl,
   (ping_host_never_fails_outward _).2.2.1 rfl,
   (ping_host_never_fails_outward _).2.2.2 0 rfl⟩

/-- C7 (the code, as written): `cmd_scan` never reads the parsed `--subnet`
value, so its behaviour is identical for every supplied `--subnet`; at a
concrete environment it scans the auto-discovered subnet 192.168.1.56/30 even
though `--subnet 10.9.9.0/24` was supplied. -/
theorem cmd_scan_ignores_subnet_arg :
    (∀ (env : Env) (outcome : Nat → FutureOutcome) (order : IPv4Net → List Nat) (a b : Args),
      cmd_scan env outcome order a = cmd_scan env outcome order b)
    ∧ cmd_scan
        ⟨["eth0"], some ("192.168.1.57"),
          some ("inet 192.168.1.57 netmask 0xfffffffc broadcast 192.168.1.59")⟩
        probeNone (fun n => hosts n) ⟨some ("10.9.9.0/24")⟩
      = .exit 0 (some ⟨⟨3232235832, 30⟩, [3232235833, 3232235834], [],
          [3232235833, 3232235834]⟩) := by
  constructor
  · intro env outcome order a b
    rfl
  · decide

/-- C9: a /31 subnet passes the size policy and scans both of its addresses;
a /32 subnet passes and scans its single address. -/
theorem scan_accepts_slash31_slash32 (n : IPv4Net) (outcome : Nat → FutureOutcome)
    (order : List Nat) :
    (n.prefixlen = 31 → ∃ r, scan_network n outcome order = .ok r
        ∧ r.hosts_scanned = [n.network, n.network + 1] ∧ r.hosts_scanned ≠ [])
    ∧ (n.prefixlen = 32 → ∃ r, scan_network n outcome order = .ok r
        ∧ r.hosts_scanned = [n.network] ∧ r.hosts_scanned ≠ []) := by
  constructor
  · intro h
    have hne : ¬ n.prefixlen < 22 := by omega
    have heq : scan_network n outcome order
        = .ok ⟨n, hosts n, order.filter (fun ip => isAlive (outcome ip)),
            order.filter (fun ip => !isAlive (outcome ip))⟩ := by
      simp only [scan_network, if_neg hne]
    exact ⟨_, heq, by simp [hosts, h], by simp [hosts, h]⟩
  · intro h
    have hne : ¬ n.prefixlen < 22 := by omega
    have heq : scan_network n outcome order
        = .ok ⟨n, hosts n, order.filter (fun ip => isAlive (outcome ip)),
            order.filter (fun ip => !isAlive (outcome ip))⟩ := by
      simp only [scan_network, if_neg hne]
    exact ⟨_, heq, by simp [hosts, h], by simp [hosts, h]⟩

/-- Witness for C9 at 10.0.0.0/31 and 10.0.0.5/32. -/
theorem scan_accepts_slash31_slash32_witness :
    (∃ r, scan_network ⟨167772160, 31⟩ probeNone [167772160, 167772161] = .ok r
        ∧ r.hosts_scanned = [167772160, 167772161] ∧ r.hosts_scanned ≠ [])
    ∧ (∃ r, scan_network ⟨167772165, 32⟩ probeNone [167772165] = .ok r
        ∧ r.hosts_scanned = [167772165] ∧ r.hosts_scanned ≠ []) :=
  ⟨(scan_accepts_slash31_slash32 ⟨167772160, 31⟩ probeNone [167772160, 167772161]).1 rfl,
   (scan_accepts_slash31_slash32 ⟨167772165, 32⟩ probeNone [167772165]).2 rfl⟩

/-- C6: during discovery (local IP resolved), every netmask-parsing failure
falls back to the /24 default mask 255.255.255.0: the `ifconfig` call
raising, the mask not being found in its output, and the hex-mask conversion
raising. -/
theorem get_netmask_fallback (env : Env) (ip : String) (hip : env.localIP = some ip) :
    (env.ifconfigOut = none → get_netmask env = some ("255.255.255.0"))
    ∧ (∀ out, env.ifconfigOut = some out →
        findRawMask (linesOf out) ip = none →
        get_netmask env = some ("255.255.255.0"))
    ∧ (∀ out mask, env.ifconfigOut = some out →
        findRawMask (linesOf out) ip = some mask →
        convertMask mask = none →
        get_netmask env = some ("255.255.255.0")) := by
  refine ⟨?_, ?_, ?_⟩
  · intro h
    simp [get_netmask, h]
  · intro out hout hfind
    simp [get_netmask, hout, hip, hfind]
  · intro out mask hout hfind hconv
    simp [get_netmask, hout, hip, hfind, hconv]

/-- Witness for C6: the utility raising, the mask absent from the output, and
an unparsable hexadecimal mask all yield the /24 default. -/
theorem get_netmask_fallback_witness :
    get_netmask ⟨[], some ("192.168.1.5"), none⟩ = some ("255.255.255.0")
    ∧ get_netmask ⟨[], some ("192.168.1.5"), some ("lo0: flags=8049")⟩
        = some ("255.255.255.0")
    ∧ get_netmask ⟨[], some ("10.0.0.7"), some ("inet 10.0.0.7 netmask 0xzz")⟩
        = some ("255.255.255.0") :=
  ⟨(get_netmask_fallback ⟨[], some ("192.168.1.5"), none⟩ ("192.168.1.5") rfl).1 rfl,
   (get_netmask_fallback ⟨[], some ("192.168.1.5"), some ("lo0: flags=8049")⟩
      ("192.168.1.5") rfl).2.1 ("lo0: flags=8049") rfl (by decide),
   (get_netmask_fallback ⟨[], some ("10.0.0.7"), some ("inet 10.0.0.7 netmask 0xzz")⟩
      ("10.0.0.7") rfl).2.2 ("inet 10.0.0.7 netmask 0xzz") ("0xzz") rfl (by decide)
      (by decide)⟩

/-- C5: `discover_subnet` fails with a `NetworkError` of code `no-interface`
exactly when the interface argument is `None`, no active interface is found,
no local IP resolves, or no netmask resolves; every `NetworkError` it raises
has that code, and whenever it returns a subnet none of those failure
situations holds. -/
theorem discover_subnet_no_interface_iff (env : Env) (iface : Option String) :
    ((∃ msg, discover_subnet env iface = .error (.netErr ⟨"no-interface", msg⟩))
      ↔ (iface = none ∨ env.interfaces = [] ∨ env.localIP = none ∨ get_netmask env = none))
    ∧ (∀ e, discover_subnet env iface = .error (.netErr e) → e.code = "no-interface")
    ∧ (∀ n, discover_subnet env iface = .ok n →
        iface ≠ none ∧ env.interfaces ≠ [] ∧ env.localIP ≠ none ∧ get_netmask env ≠ none) := by
  rcases iface with _ | s
  · refine ⟨?_, ?_, ?_⟩ <;> simp [discover_subnet]
  · rcases henv : env.interfaces with _ | ⟨i0, irest⟩
    · refine ⟨?_, ?_, ?_⟩ <;> simp [discover_subnet, henv]
    · rcases hip : env.localIP with _ | ip
      · refine ⟨?_, ?_, ?_⟩ <;> simp [discover_subnet, henv, hip]
      · rcases hm : get_netmask env with _ | m
        · refine ⟨?_, ?_, ?_⟩ <;> simp [discover_subnet, henv, hip, hm]
        · rcases ha : parseIPv4 ip with _ | a
          · refine ⟨?_, ?_, ?_⟩ <;> simp [discover_subnet, henv, hip, hm, ha]
          · rcases hp : maskPrefixLen m with _ | p
            · refine ⟨?_, ?_, ?_⟩ <;> simp [discover_subnet, henv, hip, hm, ha, hp]
            · refine ⟨?_, ?_, ?_⟩ <;> simp [discover_subnet, henv, hip, hm, ha, hp]

/-- Witness for C5: with no resolvable local IP, discovery fails with code
`no-interface`. -/
theorem discover_subnet_no_interface_iff_witness :
    ∃ msg, discover_subnet ⟨["eth0"], none, none⟩ (some ("auto"))
      = .error (.netErr ⟨"no-interface", msg⟩) :=
  (discover_subnet_no_interface_iff ⟨["eth0"], none, none⟩ (some ("auto"))).1.mpr
    (Or.inr (Or.inr (Or.inl rfl)))

/-- C10: once a local IP is resolved, `_get_netmask` always returns a mask
(every failure path falls back), so `discover_subnet` can never raise the
`Could not determine network mask` error, whatever the environment. -/
theorem netmask_branch_unreachable (env : Env) :
    (env.localIP.isSome → (get_netmask env).isSome)
    ∧ (∀ iface, discover_subnet env iface
        ≠ .error (.netErr ⟨"no-interface", "Could not determine network mask"⟩)) := by
  have h1 : env.localIP.isSome → (get_netmask env).isSome := by
    intro h
    rcases hip : env.localIP with _ | ip
    · rw [hip] at h
      simp at h
    · rcases hout : env.ifconfigOut with _ | out
      · simp [get_netmask, hout]
      · simp only [get_netmask, hout, hip]
        rcases hf : findRawMask (linesOf out) ip with _ | mask
        · simp
        · rcases hc : convertMask mask with _ | m <;> simp [hc]
  refine ⟨h1, ?_⟩
  intro iface
  rcases iface with _ | s
  · simp [discover_subnet]
  · rcases henv : env.interfaces with _ | ⟨i0, irest⟩
    · simp [discover_subnet, henv]
    · rcases hip : env.localIP with _ | ip
      · simp [discover_subnet, henv, hip]
      · have h2 : (get_netmask env).isSome := h1 (by rw [hip]; rfl)
        rcases hm : get_netmask env with _ | m
        · rw [hm] at h2
          simp at h2
        · rcases ha : parseIPv4 ip with _ | a <;> rcases hp : maskPrefixLen m with _ | p <;>
            simp [discover_subnet, henv, hip, hm, ha, hp]

/-- Witness for C10 at a concrete environment with a resolved local IP. -/
theorem netmask_branch_unreachable_witness :
    (get_netmask ⟨[], some ("10.0.0.7"), none⟩).isSome = true
    ∧ discover_subnet ⟨[], some ("10.0.0.7"), none⟩ none
      ≠ .error (.netErr ⟨"no-interface", "Could not determine network mask"⟩) :=
  ⟨(netmask_branch_unreachable ⟨[], some ("10.0.0.7"), none⟩).1 rfl,
   (netmask_branch_unreachable ⟨[], some ("10.0.0.7"), none⟩).2 none⟩

/-- C8: when discovery resolves a local IP and a netmask, the returned subnet
is their non-strict combination: the prefix comes from the mask and the
network address is the local IP with its host bits cleared, which differs
from the raw host IP whenever host bits were set. -/
theorem discover_subnet_clears_host_bits (env : Env) (s ip mask : String) (a p : Nat)
    (hs : env.interfaces ≠ [])
    (hip : env.localIP = some ip)
    (hm : get_netmask env = some mask)
    (ha : parseIPv4 ip = some a)
    (hp : maskPrefixLen mask = some p) :
    discover_subnet env (some s) = .ok (ipv4NetworkNonstrict a p)
    ∧ (ipv4NetworkNonstrict a p).network = a - a % 2 ^ (32 - p)
    ∧ (ipv4NetworkNonstrict a p).prefixlen = p
    ∧ (a % 2 ^ (32 - p) ≠ 0 → (ipv4NetworkNonstrict a p).network ≠ a) := by
  refine ⟨?_, rfl, rfl, ?_⟩
  · rcases henv : env.interfaces with _ | ⟨i0, irest⟩
    · exact absurd henv hs
    · simp [discover_subnet, henv, hip, hm, ha, hp]
  · intro hmod
    have hle : a % 2 ^ (32 - p) ≤ a := Nat.mod_le a _
    simp only [ipv4NetworkNonstrict]
    omega

/-- C4: the report sorts the alive hosts into strictly ascending numeric
order (they are pairwise distinct in any scan result satisfying the data
model's invariant), the rendered string is invariant under any permutation of
the alive list, and the report lines state the subnet identity and the three
counts. -/
theorem report_sorted_deterministic (r : ScanResult) (hnd : r.alive.Nodup) :
    List.Pairwise (fun a b => a < b) (sortedAlive r)
    ∧ (∀ l, l.Perm r.alive →
        report ⟨r.subnet, r.hosts_scanned, l, r.dead⟩ = report r)
    ∧ reportLines r
        = ["Scan Results for " ++ netToString r.subnet,
           String.mk (List.replicate 40 '='),
           "Hosts scanned: " ++ toString r.hosts_scanned.length,
           "Alive: " ++ toString r.alive.length,
           "Dead: " ++ toString r.dead.length,
           "",
           "Alive hosts:"]
          ++ (sortedAlive r).map (fun h => "  " ++ ipToString h) := by
  have hsorted : List.Sorted (fun a b : Nat => a ≤ b) (sortedAlive r) :=
    List.sorted_insertionSort _ _
  have hperm : (sortedAlive r).Perm r.alive := List.perm_insertionSort _ _
  have hnd' : (sortedAlive r).Nodup := hperm.symm.nodup hnd
  refine ⟨?_, ?_, rfl⟩
  · exact (hsorted.and hnd').imp (fun h => lt_of_le_of_ne h.1 h.2)
  · intro l hl
    have hsl : List.insertionSort (fun a b : Nat => a ≤ b) l = sortedAlive r :=
      List.eq_of_perm_of_sorted
        ((List.perm_insertionSort _ l).trans (hl.trans hperm.symm))
        (List.sorted_insertionSort _ _) hsorted
    have hlen : l.length = r.alive.length := hl.length_eq
    simp only [report, reportLines, sortedAlive] at hsl ⊢
    rw [hlen, hsl]

/-- Witness for C4 at a two-host result handed the alive hosts in reversed
completion order. -/
theorem report_sorted_deterministic_witness :
    List.Pairwise (fun a b => a < b)
      (sortedAlive ⟨⟨3232235832, 30⟩, [3232235833, 3232235834], [3232235834, 3232235833], []⟩)
    ∧ report ⟨⟨3232235832, 30⟩, [3232235833, 3232235834], [3232235833, 3232235834], []⟩
        = report ⟨⟨3232235832, 30⟩, [3232235833, 3232235834], [3232235834, 3232235833], []⟩ := by
  have h := report_sorted_deterministic
    ⟨⟨3232235832, 30⟩, [3232235833, 3232235834], [3232235834, 3232235833], []⟩ (by decide)
  exact ⟨h.1, h.2.1 [3232235833, 3232235834] (by decide)⟩

/-- The host list produced for any subnet has no duplicate addresses. -/
theorem hosts_nodup (n : IPv4Net) : (hosts n).Nodup := by
  by_cases h31 : n.prefixlen = 31
  · simp [hosts, h31]
  · by_cases h32 : n.prefixlen = 32
    · simp [hosts, h31, h32]
    · simp only [hosts, if_neg h31, if_neg h32]
      exact List.nodup_range' _ _

/-- For prefix lengths up to 30 the spec reading and the code agree: the
scanned hosts are exactly the subnet's addresses without the first and the
last one. -/
theorem usableHosts_eq_hosts (n : IPv4Net) (h22 : 22 ≤ n.prefixlen) (h30 : n.prefixlen ≤ 30) :
    usableHosts n = hosts n := by
  have h31 : n.prefixlen ≠ 31 := by omega
  have h32 : n.prefixlen ≠ 32 := by omega
  have hN4 : 4 ≤ numAddresses n := by
    have h2 : 2 ≤ 32 - n.prefixlen := by omega
    have hpow := Nat.pow_le_pow_right (n := 2) (by omega) h2
    simpa [numAddresses] using hpow
  obtain ⟨M, hM⟩ : ∃ M, numAddresses n = M + 2 := ⟨numAddresses n - 2, by omega⟩
  have hM' : numAddresses n = M + 1 + 1 := by omega
  have hsplit : allAddresses n
      = n.network :: (List.range' (n.network + 1) M ++ [n.network + M + 1]) := by
    have hr : allAddresses n = List.range' n.network (M + 1 + 1) := by
      simp only [allAddresses]
      rw [hM']
    have harith : n.network + 1 * (M + 1) = n.network + M + 1 := by omega
    rw [hr, List.range'_concat, List.range'_succ, harith]
    simp [List.cons_append]
  have hbc : broadcastAddr n = n.network + M + 1 := by
    simp only [broadcastAddr]
    omega
  have hfilter : usableHosts n = List.range' (n.network + 1) M := by
    simp only [usableHosts, hsplit, hbc]
    have hq1 : (n.network != n.network && n.network != (n.network + M + 1)) = false := by
      simp
    have hq2 : ((n.network + M + 1) != n.network
        && (n.network + M + 1) != (n.network + M + 1)) = false := by
      simp
    have hmid : List.filter (fun a => a != n.network && a != (n.network + M + 1))
        (List.range' (n.network + 1) M) = List.range' (n.network + 1) M := by
      rw [List.filter_eq_self]
      intro a ha
      rw [List.mem_range'_1] at ha
      simp only [Bool.and_eq_true, bne_iff_ne, ne_eq]
      omega
    simp [List.filter_cons, List.filter_append, hq1, hq2, hmid]
  have hhosts : hosts n = List.range' (n.network + 1) M := by
    simp only [hosts, if_neg h31, if_neg h32]
    congr 1
    omega
  rw [hfilter, hhosts]

/-- C1 fails as stated at the /32 subnet 10.0.0.1/32: `subnet.hosts()` yields
the single address, but the set of addresses excluding network and broadcast
is empty there, so `hosts_scanned` differs from the claim's reading of the
usable host addresses. -/
theorem scan_hosts_ne_usable_at_slash32 :
    scan_network ⟨167772161, 32⟩ probeNone [167772161]
      = .ok ⟨⟨167772161, 32⟩, [167772161], [], [167772161]⟩
    ∧ usableHosts ⟨167772161, 32⟩ = []
    ∧ ([167772161] : List Nat) ≠ usableHosts ⟨167772161, 32⟩ :=
  ⟨by decide, by decide, by decide⟩

/-- A probe outcome: alive exactly on even addresses. -/
def probeEven : Nat → FutureOutcome :=
  fun ip => .result (ip % 2 == 0)

/-- C1 (amended): for every subnet of prefix length at least 22 and every
completion order that is a permutation of the host list, the scan succeeds,
`hosts_scanned` is the subnet's host list (equal to the usable addresses —
network and broadcast excluded — whenever the prefix length is at most 30),
and `alive`/`dead` partition it: together they are a permutation of
`hosts_scanned`, no address is in both, and no list holds an address twice. -/
theorem scan_network_partition (n : IPv4Net) (outcome : Nat → FutureOutcome)
    (order : List Nat) (h22 : 22 ≤ n.prefixlen) (hperm : order.Perm (hosts n)) :
    ∃ r, scan_network n outcome order = .ok r
      ∧ r.subnet = n
      ∧ r.hosts_scanned = hosts n
      ∧ (n.prefixlen ≤ 30 → r.hosts_scanned = usableHosts n)
      ∧ (r.alive ++ r.dead).Perm r.hosts_scanned
      ∧ (∀ a, a ∈ r.hosts_scanned ↔ a ∈ r.alive ∨ a ∈ r.dead)
      ∧ (∀ a, ¬ (a ∈ r.alive ∧ a ∈ r.dead))
      ∧ r.alive.Nodup ∧ r.dead.Nodup ∧ r.hosts_scanned.Nodup := by
  have hne : ¬ n.prefixlen < 22 := by omega
  have hordnd : order.Nodup := hperm.symm.nodup (hosts_nodup n)
  refine ⟨⟨n, hosts n, order.filter (fun ip => isAlive (outcome ip)),
      order.filter (fun ip => !isAlive (outcome ip))⟩,
    by simp only [scan_network, if_neg hne], rfl, rfl, ?_, ?_, ?_, ?_, ?_, ?_, ?_⟩
  · intro h30
    exact (usableHosts_eq_hosts n h22 h30).symm
  · exact (List.filter_append_perm _ order).trans hperm
  · intro a
    constructor
    · intro ha
      have hao : a ∈ order := hperm.mem_iff.mpr ha
      by_cases hia : isAlive (outcome a) = true
      · exact Or.inl (List.mem_filter.mpr ⟨hao, hia⟩)
      · refine Or.inr (List.mem_filter.mpr ⟨hao, ?_⟩)
        simp [Bool.not_eq_true] at hia
        simp [hia]
    · rintro (ha | ha)
      · exact hperm.mem_iff.mp (List.mem_filter.mp ha).1
      · exact hperm.mem_iff.mp (List.mem_filter.mp ha).1
  · rintro a ⟨h1, h2⟩
    have b1 := (List.mem_filter.mp h1).2
    have b2 := (List.mem_filter.mp h2).2
    rw [b1] at b2
    exact Bool.noConfusion b2
  · exact hordnd.filter _
  · exact hordnd.filter _
  · exact hosts_nodup n

/-- Witness for C1 at 192.168.1.56/30 with the completion order reversed and
one alive, one dead host. -/
theorem scan_network_partition_witness :
    ∃ r, scan_network ⟨3232235832, 30⟩ probeEven [3232235834, 3232235833] = .ok r
      ∧ r.subnet = ⟨3232235832, 30⟩
      ∧ r.hosts_scanned = hosts ⟨3232235832, 30⟩
      ∧ ((⟨3232235832, 30⟩ : IPv4Net).prefixlen ≤ 30 →
          r.hosts_scanned = usableHosts ⟨3232235832, 30⟩)
      ∧ (r.alive ++ r.dead).Perm r.hosts_scanned
      ∧ (∀ a, a ∈ r.hosts_scanned ↔ a ∈ r.alive ∨ a ∈ r.dead)
      ∧ (∀ a, ¬ (a ∈ r.alive ∧ a ∈ r.dead))
      ∧ r.alive.Nodup ∧ r.dead.Nodup ∧ r.hosts_scanned.Nodup :=
  scan_network_partition ⟨3232235832, 30⟩ probeEven [3232235834, 3232235833]
    (by decide) (by decide)

/-- Witness for C8: local IP 192.168.1.57 with the /24 fallback mask yields
network address 192.168.1.0, not the raw host IP. -/
theorem discover_subnet_clears_host_bits_witness :
    discover_subnet ⟨["eth0"], some ("192.168.1.57"), none⟩ (some ("auto"))
      = .ok (ipv4NetworkNonstrict 3232235833 24)
    ∧ (ipv4NetworkNonstrict 3232235833 24).network = 3232235776
    ∧ (ipv4NetworkNonstrict 3232235833 24).network ≠ 3232235833 := by
  have h := discover_subnet_clears_host_bits ⟨["eth0"], some ("192.168.1.57"), none⟩
    ("auto") ("192.168.1.57") ("255.255.255.0") 3232235833 24
    (by decide) rfl rfl (by decide) (by decide)
  exact ⟨h.1, by decide, h.2.2.2 (by decide)⟩

example : hosts ⟨3232235776, 30⟩ = [3232235777, 3232235778] := by decide
example : usableHosts ⟨3232235776, 30⟩ = [3232235777, 3232235778] := by decide
example : hosts ⟨167772161, 32⟩ = [167772161] := by decide
example : usableHosts ⟨167772161, 32⟩ = [] := by decide
example : ipToString 3232235776 = "192.168.1.0" := by decide

end PacketGroper
